import Mathlib

/-!
Shallow embedding of `awslabs/aws_api_mcp_server/core/common/config.py`,
the configuration-bootstrap module of the repository.

The module reads environment variables and the operating-system identity,
resolves a platform-appropriate server directory, and builds an immutable
configuration snapshot.  We embed the environment table as a function
`String → Option String` (unset keys map to `none`; a variable set to the
empty string is `some ""`, distinct from unset, exactly as in `os.environ`),
and the operating-system identity together with the standard library
primitives `os.name`, `os.uname().sysname` and `tempfile.gettempdir()` as a
record `SysState`.  `tempfile.gettempdir()` is the "system temporary
directory" of the specification and is modelled as an opaque string field.
`os.uname()` is modelled as `Option String`: `none` stands for a platform
(such as Windows) where `os.uname` is undefined and evaluating it faults,
so functions that may evaluate it return `Option`.
-/

/-- The process environment table: `os.environ`.  `none` means the variable
is unset; `some ""` means it is set to the empty string. -/
def Env : Type := String → Option String

/-- The environment table with no variables set. -/
def emptyEnv : Env := fun _ => none

/-- Operating-system identity and standard-library primitives read by the
module: `os.name`, `os.uname().sysname` (undefined on some platforms, hence
`Option`), and `tempfile.gettempdir()`. -/
structure SysState where
  osName : String
  unameSysname : Option String
  tempdir : String

/-- Python `str.casefold`, modelled as character-wise lowercasing (Python
performs full Unicode case folding; on the literals compared by this module
the two agree). -/
def pyCasefold (s : String) : String := ⟨s.data.map Char.toLower⟩

/-- Python `str(b)` for a `bool`: `"True"` or `"False"`. -/
def pyStrBool (b : Bool) : String := if b then "True" else "False"

/-- `TRUTHY_VALUES = frozenset(['true', 'yes', '1'])` from the source. -/
def TRUTHY_VALUES : List String := ["true", "yes", "1"]

/-- `READ_ONLY_KEY = 'READ_OPERATIONS_ONLY'`. -/
def READ_ONLY_KEY : String := "READ_OPERATIONS_ONLY"

/-- `TELEMETRY_KEY = 'AWS_API_MCP_TELEMETRY'`. -/
def TELEMETRY_KEY : String := "AWS_API_MCP_TELEMETRY"

/-- `get_env_bool(env_key, default)` from the source:
`os.getenv(env_key, str(default)).casefold() in TRUTHY_VALUES`.
`os.getenv` returns the raw value when the variable is set (even to the
empty string) and the supplied default string otherwise. -/
def get_env_bool (env : Env) (env_key : String) (default : Bool) : Bool :=
  TRUTHY_VALUES.contains (pyCasefold ((env env_key).getD (pyStrBool default)))

/-- Python `pathlib.Path(b) / s` rendered as a string.  Joining with an
absolute right operand replaces the left; joining onto the empty path
(`Path('')`) yields the right operand; otherwise a single separator is
inserted. -/
def pyPathJoin (b s : String) : String :=
  if s.data.head? = some '/' then s
  else if b = "" then s
  else if b.data.getLast? = some '/' then b ++ s
  else b ++ "/" ++ s

/-- Python `a or b` on an optional string `a`: `b` when `a` is unset (`None`)
or falsy (the empty string), otherwise the value of `a`. -/
def orFalsy (a : Option String) (b : String) : String :=
  match a with
  | some s => if s = "" then b else s
  | none => b

/-- `base_location = 'aws-api-mcp'` from `get_server_directory`. -/
def base_location : String := "aws-api-mcp"

/-- `get_server_directory()` from the source.  The condition
`os.name == 'nt' or os.uname().sysname == 'Darwin'` is embedded with the
short-circuit made explicit: when `osName = "nt"` the result is produced
without inspecting `unameSysname`; otherwise `os.uname()` is evaluated, and
on a platform where it is undefined (`none`) the call faults, modelled as
`none`.  The Linux branch is
`os.environ.get('XDG_RUNTIME_DIR') or os.environ.get('TMPDIR') or tempfile.gettempdir()`. -/
def get_server_directory (sys : SysState) (env : Env) : Option String :=
  if sys.osName = "nt" then
    some (pyPathJoin sys.tempdir base_location)
  else
    match sys.unameSysname with
    | none => none
    | some sysname =>
      if sysname = "Darwin" then
        some (pyPathJoin sys.tempdir base_location)
      else
        some (pyPathJoin
          (orFalsy (env "XDG_RUNTIME_DIR") (orFalsy (env "TMPDIR") sys.tempdir))
          base_location)

/-- The configuration snapshot: the six module-level constants of the
source, in source order. -/
structure ConfigSnapshot where
  fastmcp_log_level : String
  default_region : Option String
  read_operations_only_mode : Bool
  opt_in_telemetry : Bool
  working_directory : String
  aws_api_mcp_profile_name : Option String
deriving DecidableEq, Repr

/-- The module-level constant block of the source, as one function of the
environment and the operating-system identity:
`FASTMCP_LOG_LEVEL = os.getenv('FASTMCP_LOG_LEVEL', 'WARNING')`,
`DEFAULT_REGION = os.getenv('AWS_REGION')`,
`READ_OPERATIONS_ONLY_MODE = get_env_bool(READ_ONLY_KEY, False)`,
`OPT_IN_TELEMETRY = get_env_bool(TELEMETRY_KEY, True)`,
`WORKING_DIRECTORY = os.getenv('AWS_API_MCP_WORKING_DIR', get_server_directory() / 'workdir')`,
`AWS_API_MCP_PROFILE_NAME = os.getenv('AWS_API_MCP_PROFILE_NAME')`.
Python evaluates the default argument `get_server_directory() / 'workdir'`
eagerly, so a fault in `get_server_directory` propagates (result `none`)
even when the override is set. -/
def buildConfiguration (sys : SysState) (env : Env) : Option ConfigSnapshot :=
  match get_server_directory sys env with
  | none => none
  | some serverDir =>
    some
      { fastmcp_log_level := (env "FASTMCP_LOG_LEVEL").getD "WARNING"
        default_region := env "AWS_REGION"
        read_operations_only_mode := get_env_bool env READ_ONLY_KEY false
        opt_in_telemetry := get_env_bool env TELEMETRY_KEY true
        working_directory :=
          (env "AWS_API_MCP_WORKING_DIR").getD (pyPathJoin serverDir "workdir")
        aws_api_mcp_profile_name := env "AWS_API_MCP_PROFILE_NAME" }

/-- Written from the specification's words for the Linux fallback chain:
"the first non-empty value among, in order: ... ; a variable set to the
empty string is skipped exactly like an unset one."  Compared against the
source's `or`-chain in the theorem for claim C3. -/
def firstNonEmptySpec : List (Option String) → String → String
  | [], d => d
  | o :: rest, d =>
    match o with
    | some s => if s = "" then firstNonEmptySpec rest d else s
    | none => firstNonEmptySpec rest d

-- Concrete states and environments used by witnesses and counterexamples.

/-- A concrete Linux identity: `os.name = 'posix'`, `uname` defined with
sysname `Linux`, system temporary directory `/tmp`. -/
def sysLinux : SysState := ⟨"posix", some "Linux", "/tmp"⟩

/-- A concrete Windows identity: `os.name = 'nt'` and `os.uname` undefined. -/
def sysWindows : SysState := ⟨"nt", none, "/wintemp"⟩

/-- A concrete macOS identity. -/
def sysDarwin : SysState := ⟨"posix", some "Darwin", "/var/tmpdir"⟩

/-- Environment with `XDG_RUNTIME_DIR=/run/user/1000` and `TMPDIR=/tmp/x`. -/
def envXdg : Env := fun k =>
  if k = "XDG_RUNTIME_DIR" then some "/run/user/1000"
  else if k = "TMPDIR" then some "/tmp/x" else none

/-- Environment with `XDG_RUNTIME_DIR` set to the empty string and
`TMPDIR=/tmp/x`. -/
def envEmptyXdg : Env := fun k =>
  if k = "XDG_RUNTIME_DIR" then some ""
  else if k = "TMPDIR" then some "/tmp/x" else none

/-- Environment with `READ_OPERATIONS_ONLY` set to a whitespace-padded
truthy literal. -/
def envPadded : Env := fun k =>
  if k = READ_ONLY_KEY then some " true" else none

/-- Environment with `AWS_API_MCP_WORKING_DIR` set to the empty string. -/
def envEmptyWorkdir : Env := fun k =>
  if k = "AWS_API_MCP_WORKING_DIR" then some "" else none

/-- Environment setting every string-valued field, two of them to the empty
string. -/
def envAllSet : Env := fun k =>
  if k = "FASTMCP_LOG_LEVEL" then some ""
  else if k = "AWS_REGION" then some "eu-west-1"
  else if k = "AWS_API_MCP_WORKING_DIR" then some ""
  else if k = "AWS_API_MCP_PROFILE_NAME" then some "prof" else none

example : get_env_bool emptyEnv READ_ONLY_KEY false = false := by decide
example : get_env_bool emptyEnv TELEMETRY_KEY true = true := by decide
example : get_env_bool envPadded READ_ONLY_KEY false = false := by decide
example : get_server_directory sysLinux envXdg
    = some "/run/user/1000/aws-api-mcp" := by decide
example : get_server_directory sysLinux envEmptyXdg
    = some "/tmp/x/aws-api-mcp" := by decide
example : get_server_directory sysWindows envXdg
    = some "/wintemp/aws-api-mcp" := by decide
example : get_server_directory sysDarwin envXdg
    = some "/var/tmpdir/aws-api-mcp" := by decide
example : (buildConfiguration sysLinux envEmptyWorkdir).map
    (fun c => c.working_directory) = some "" := by decide

-- Helper lemmas.

/-- Joining a non-empty final component yields a non-empty path. -/
theorem pyPathJoin_ne_empty (b s : String) (h : s ≠ "") : pyPathJoin b s ≠ "" := by
  unfold pyPathJoin
  split
  · exact h
  · split
    · exact h
    · split
      · intro heq
        have hd := congrArg String.data heq
        simp only [String.data_append] at hd
        have hs : s.data = [] := (List.append_eq_nil.mp hd).2
        exact h (by cases s; simp_all)
      · intro heq
        have hd := congrArg String.data heq
        simp only [String.data_append] at hd
        have hs : s.data = [] := (List.append_eq_nil.mp hd).2
        exact h (by cases s; simp_all)

/-- The source's two-step falsy `or`-chain agrees with the specification's
"first non-empty in order" selection. -/
theorem orFalsy_eq_firstNonEmptySpec (a b : Option String) (d : String) :
    orFalsy a (orFalsy b d) = firstNonEmptySpec [a, b] d := by
  cases a <;> cases b <;> simp [orFalsy, firstNonEmptySpec]

-- Claim theorems.

/-- C1: for every set value of the named environment variable,
`get_env_bool` returns `true` if and only if the case-folded value is
exactly `"true"`, `"yes"` or `"1"`; every other string — the empty string
and whitespace-padded truthy literals included — yields `false`. -/
theorem get_env_bool_truthy_iff (env : Env) (key : String) (default : Bool)
    (v : String) (h : env key = some v) :
    get_env_bool env key default = true ↔
      (pyCasefold v = "true" ∨ pyCasefold v = "yes" ∨ pyCasefold v = "1") := by
  simp [get_env_bool, h, TRUTHY_VALUES]

/-- Witness for C1 at the whitespace-padded value `" true"`. -/
theorem get_env_bool_truthy_iff_witness :
    envPadded READ_ONLY_KEY = some " true" ∧
      (get_env_bool envPadded READ_ONLY_KEY true = true ↔
        (pyCasefold " true" = "true" ∨ pyCasefold " true" = "yes" ∨
          pyCasefold " true" = "1")) :=
  ⟨by decide, get_env_bool_truthy_iff envPadded READ_ONLY_KEY true " true" (by decide)⟩

/-- C2: on a Windows (`os.name = 'nt'`) or macOS (`uname sysname `Darwin`)
identity, `get_server_directory` returns `<system temp dir>/aws-api-mcp`
for every environment table, hence regardless of `XDG_RUNTIME_DIR` and
`TMPDIR`. -/
theorem get_server_directory_win_mac (sys : SysState) (env : Env)
    (h : sys.osName = "nt" ∨ sys.unameSysname = some "Darwin") :
    get_server_directory sys env = some (pyPathJoin sys.tempdir base_location) := by
  rcases h with h | h
  · simp [get_server_directory, h]
  · by_cases hnt : sys.osName = "nt" <;> simp [get_server_directory, hnt, h]

/-- Witness for C2 on the macOS identity with both fallback variables set. -/
theorem get_server_directory_win_mac_witness :
    get_server_directory sysDarwin envXdg
      = some (pyPathJoin sysDarwin.tempdir base_location) :=
  get_server_directory_win_mac sysDarwin envXdg (Or.inr (by decide))

/-- C3: on a non-Windows, non-macOS identity, `get_server_directory`
returns `<base>/aws-api-mcp`, where `base` is the first non-empty value
among `XDG_RUNTIME_DIR`, `TMPDIR` and the system temporary directory, a
variable set to the empty string being skipped exactly like an unset one. -/
theorem get_server_directory_linux (sys : SysState) (env : Env) (s : String)
    (h1 : sys.osName ≠ "nt") (h2 : sys.unameSysname = some s)
    (h3 : s ≠ "Darwin") :
    get_server_directory sys env
      = some (pyPathJoin
          (firstNonEmptySpec [env "XDG_RUNTIME_DIR", env "TMPDIR"] sys.tempdir)
          base_location) := by
  rw [← orFalsy_eq_firstNonEmptySpec]
  simp [get_server_directory, h1, h2, h3]

/-- Witness for C3 on a Linux identity with `XDG_RUNTIME_DIR` set to the
empty string, exercising the skip-empty rule. -/
theorem get_server_directory_linux_witness :
    get_server_directory sysLinux envEmptyXdg
      = some (pyPathJoin
          (firstNonEmptySpec
            [envEmptyXdg "XDG_RUNTIME_DIR", envEmptyXdg "TMPDIR"] sysLinux.tempdir)
          base_location) :=
  get_server_directory_linux sysLinux envEmptyXdg "Linux" (by decide) (by decide)
    (by decide)

/-- C4: with the variable unset, `get_env_bool` returns exactly the
supplied default. -/
theorem get_env_bool_default (env : Env) (key : String) (default : Bool)
    (h : env key = none) :
    get_env_bool env key default = default := by
  cases default <;> simp [get_env_bool, h] <;> decide

/-- Witness for C4 on the empty environment with default `true`. -/
theorem get_env_bool_default_witness :
    get_env_bool emptyEnv TELEMETRY_KEY true = true :=
  get_env_bool_default emptyEnv TELEMETRY_KEY true (by decide)

/-- A second environment agreeing with `envPadded` on `READ_OPERATIONS_ONLY`
but differing on every other key. -/
def envPaddedNoise : Env := fun k =>
  if k = READ_ONLY_KEY then some " true" else some "1"

/-- The snapshot produced on `sysLinux` with no environment variables set. -/
def cfgDefault : ConfigSnapshot :=
  ⟨"WARNING", none, false, true, "/tmp/aws-api-mcp/workdir", none⟩

/-- The snapshot produced on `sysLinux` under `envAllSet`. -/
def cfgAllSet : ConfigSnapshot :=
  ⟨"", some "eu-west-1", false, true, "", some "prof"⟩

/-- C5 counterexample: with `AWS_API_MCP_WORKING_DIR` set to the empty
string, the snapshot's working directory is the empty path, refuting
"workingDirectory is a non-empty path for every environment table". -/
theorem working_directory_empty_cex :
    (buildConfiguration sysLinux envEmptyWorkdir).map
        ConfigSnapshot.working_directory = some "" := by
  decide

/-- C5 (amended): the working directory is non-empty whenever the
`AWS_API_MCP_WORKING_DIR` override is unset; when the override is set, the
working directory is the raw override value, so it is empty exactly when
the override is the empty string. -/
theorem working_directory_nonempty_amended (sys : SysState) (env : Env)
    (c : ConfigSnapshot) (hb : buildConfiguration sys env = some c) :
    (env "AWS_API_MCP_WORKING_DIR" = none → c.working_directory ≠ "") ∧
    (∀ v, env "AWS_API_MCP_WORKING_DIR" = some v → c.working_directory = v) := by
  cases hgd : get_server_directory sys env with
  | none => simp [buildConfiguration, hgd] at hb
  | some sd =>
    simp [buildConfiguration, hgd] at hb
    subst hb
    constructor
    · intro ho
      simp only [ho, Option.getD_none]
      exact pyPathJoin_ne_empty sd "workdir" (by decide)
    · intro v hv
      simp [hv]

/-- Witness for the amended C5 on `sysLinux` with the empty environment. -/
theorem working_directory_nonempty_amended_witness :
    (emptyEnv "AWS_API_MCP_WORKING_DIR" = none →
      cfgDefault.working_directory ≠ "") ∧
    (∀ v, emptyEnv "AWS_API_MCP_WORKING_DIR" = some v →
      cfgDefault.working_directory = v) :=
  working_directory_nonempty_amended sysLinux emptyEnv cfgDefault (by decide)

/-- C6: with no environment variables set, the snapshot is
`logLevel = "WARNING"`, no default region, read-only off, telemetry on,
working directory `<resolved server directory>/workdir`, no profile name. -/
theorem buildConfiguration_defaults (sys : SysState) (d : String)
    (h : get_server_directory sys emptyEnv = some d) :
    buildConfiguration sys emptyEnv
      = some ⟨"WARNING", none, false, true, pyPathJoin d "workdir", none⟩ := by
  have h1 : get_env_bool emptyEnv READ_ONLY_KEY false = false := by decide
  have h2 : get_env_bool emptyEnv TELEMETRY_KEY true = true := by decide
  simp [buildConfiguration, h, h1, h2, emptyEnv]

/-- Witness for C6 on the Linux identity, where the server directory
resolves to `/tmp/aws-api-mcp`. -/
theorem buildConfiguration_defaults_witness :
    buildConfiguration sysLinux emptyEnv
      = some ⟨"WARNING", none, false, true,
          pyPathJoin "/tmp/aws-api-mcp" "workdir", none⟩ :=
  buildConfiguration_defaults sysLinux "/tmp/aws-api-mcp" (by decide)

/-- C7: each string-valued or optional field of the snapshot reflects the
raw environment value whenever the variable is set — the empty string
included — and falls back to its default or absent marker only when the
variable is unset. -/
theorem buildConfiguration_raw_fields (sys : SysState) (env : Env)
    (c : ConfigSnapshot) (hb : buildConfiguration sys env = some c) :
    (∀ v, env "FASTMCP_LOG_LEVEL" = some v → c.fastmcp_log_level = v) ∧
    (env "FASTMCP_LOG_LEVEL" = none → c.fastmcp_log_level = "WARNING") ∧
    c.default_region = env "AWS_REGION" ∧
    (∀ v, env "AWS_API_MCP_WORKING_DIR" = some v → c.working_directory = v) ∧
    c.aws_api_mcp_profile_name = env "AWS_API_MCP_PROFILE_NAME" := by
  cases hgd : get_server_directory sys env with
  | none => simp [buildConfiguration, hgd] at hb
  | some sd =>
    simp [buildConfiguration, hgd] at hb
    subst hb
    refine ⟨fun v hv => by simp [hv], fun ho => by simp [ho], rfl,
      fun v hv => by simp [hv], rfl⟩

/-- Witness for C7 under `envAllSet`, which sets the log level and the
working-directory override to the empty string. -/
theorem buildConfiguration_raw_fields_witness :
    cfgAllSet.fastmcp_log_level = "" ∧ cfgAllSet.working_directory = "" ∧
      cfgAllSet.default_region = some "eu-west-1" :=
  have h := buildConfiguration_raw_fields sysLinux envAllSet cfgAllSet (by decide)
  ⟨h.1 "" (by decide), h.2.2.2.1 "" (by decide), h.2.2.1.trans (by decide)⟩

/-- C8: `buildConfiguration` is a pure function of the environment table and
the operating-system identity, so two calls on the same inputs produce
field-for-field equal snapshots. -/
theorem buildConfiguration_idempotent (sys : SysState) (env : Env)
    (c₁ c₂ : ConfigSnapshot)
    (h₁ : buildConfiguration sys env = some c₁)
    (h₂ : buildConfiguration sys env = some c₂) :
    c₁.fastmcp_log_level = c₂.fastmcp_log_level ∧
    c₁.default_region = c₂.default_region ∧
    c₁.read_operations_only_mode = c₂.read_operations_only_mode ∧
    c₁.opt_in_telemetry = c₂.opt_in_telemetry ∧
    c₁.working_directory = c₂.working_directory ∧
    c₁.aws_api_mcp_profile_name = c₂.aws_api_mcp_profile_name := by
  have h : c₁ = c₂ := Option.some.inj (h₁.symm.trans h₂)
  subst h
  exact ⟨rfl, rfl, rfl, rfl, rfl, rfl⟩

/-- Witness for C8 on the Linux identity with the empty environment. -/
theorem buildConfiguration_idempotent_witness :
    cfgDefault.fastmcp_log_level = cfgDefault.fastmcp_log_level ∧
    cfgDefault.default_region = cfgDefault.default_region ∧
    cfgDefault.read_operations_only_mode = cfgDefault.read_operations_only_mode ∧
    cfgDefault.opt_in_telemetry = cfgDefault.opt_in_telemetry ∧
    cfgDefault.working_directory = cfgDefault.working_directory ∧
    cfgDefault.aws_api_mcp_profile_name = cfgDefault.aws_api_mcp_profile_name :=
  buildConfiguration_idempotent sysLinux emptyEnv cfgDefault cfgDefault
    (by decide) (by decide)

/-- C9: noninterference of the boolean resolver — two environment tables
that agree on the queried key (value or joint absence) yield equal results.
The embedding of `get_env_bool` takes no operating-system identity at all,
so independence from the platform is structural. -/
theorem get_env_bool_noninterference (key : String) (default : Bool)
    (e₁ e₂ : Env) (h : e₁ key = e₂ key) :
    get_env_bool e₁ key default = get_env_bool e₂ key default := by
  unfold get_env_bool
  rw [h]

/-- Witness for C9: `envPadded` and `envPaddedNoise` agree only on
`READ_OPERATIONS_ONLY` and differ on every other key. -/
theorem get_env_bool_noninterference_witness :
    get_env_bool envPadded READ_ONLY_KEY false
      = get_env_bool envPaddedNoise READ_ONLY_KEY false :=
  get_env_bool_noninterference READ_ONLY_KEY false envPadded envPaddedNoise
    (by decide)

/-- C10: when `os.name = 'nt'`, the disjunction in `get_server_directory`
short-circuits before `os.uname()` is evaluated: the result is
`<system temp dir>/aws-api-mcp` for every value of `unameSysname`,
including `none` (uname undefined), so the undefined branch is unreachable
under the Windows precondition. -/
theorem get_server_directory_nt_short_circuit (sys : SysState) (env : Env)
    (h : sys.osName = "nt") :
    get_server_directory sys env = some (pyPathJoin sys.tempdir base_location) := by
  simp [get_server_directory, h]

/-- Witness for C10 on `sysWindows`, whose `unameSysname` is `none`. -/
theorem get_server_directory_nt_short_circuit_witness :
    get_server_directory sysWindows envXdg
      = some (pyPathJoin sysWindows.tempdir base_location) :=
  get_server_directory_nt_short_circuit sysWindows envXdg (by decide)
